import Mathlib

/-!
Shallow embedding of `src/train.py` from the mipnerf-pytorch repository.

The file under verification is a training-loop driver: `train_model(config)`
wires a dataloader, a MipNeRF model, an AdamW optimizer, a learning-rate
schedule, a loss function, checkpointing, scalar logging and periodic video
rendering into one imperative loop.  The collaborators (model.py, loss.py,
scheduler.py, datasets.py, torch, tensorboard, imageio) are external to the
shown file; they are modelled as opaque deterministic functions gathered in
a `Collab` record, exactly as the spec treats them ("opaque external
collaborators").  Tensor values are represented by opaque `Nat` handles and
scalar metrics by exact rationals `ℚ`.

The driver's observable behaviour is captured in the state `St`:
  - `log`      : the scalar events appended to the tensorboard writer
                 (the contents of `<log_dir>/train` written by this run),
  - `fs`       : the checkpoint files written by `torch.save`
                 (newest-first association list; lookup = latest write),
  - `renders`  : the per-step rendered frame sequences (the images and the
                 video written under `<log_dir>/step_<s>/`),
  - `saveTrace`, `renderTrace` : the steps at which the saving / rendering
                 branches executed,
  - `forwardModes` : the model mode observed at each forward pass,
  - `mode`     : the current train/eval mode of the model.
-/

namespace MipNeRFTrain

/-- Training/inference mode of the model, toggled by `model.train()` /
`model.eval()`. -/
inductive Mode
  | train
  | eval
deriving DecidableEq, Repr

/-- A batch of rays as produced by the dataloader: an opaque handle plus the
per-ray loss-weight field `lossmult` that the driver reads (train.py line 70). -/
structure Rays where
  rayId : Nat
  lossmult : Nat
deriving DecidableEq, Repr

/-- One `(rays, pixels)` training batch (`next(data)`, train.py line 65). -/
structure Batch where
  rays : Rays
  pixels : Nat
deriving DecidableEq, Repr

/-- Checkpoint record: `model_info = {'state_dict': ..., 'optimizer': ...,
'step': step}` (train.py line 115).  Parameter and optimizer snapshots are
opaque handles. -/
structure Ckpt where
  state_dict : Nat
  optimizer : Nat
  step : Nat
deriving DecidableEq, Repr

/-- The checkpoint paths the driver writes: `<log_dir>/model.pt` (the
canonical "latest" path, train.py line 17) and `<log_dir>/model_<step>.pt`
(the step-stamped path, train.py line 84).  Distinct steps give distinct
file names and no stamped name equals `model.pt`, so paths are embedded as
an inductive type with those disequalities built in. -/
inductive FPath
  | latest
  | stamped (step : Nat)
deriving DecidableEq, Repr

/-- Filesystem holding checkpoint files, newest write first. -/
abbrev FS := List (FPath × Ckpt)

/-- `torch.save(model_info, path)`: (over)writes the file at `path`. -/
def fsWrite (fs : FS) (p : FPath) (c : Ckpt) : FS := (p, c) :: fs

/-- `torch.load(path)`: the current content of the file at `path`, `none`
when no such file exists (in which case `torch.load` raises). -/
def fsLookup : FS → FPath → Option Ckpt
  | [], _ => none
  | (p, c) :: rest, q => if p = q then some c else fsLookup rest q

/-- One scalar event appended to the tensorboard writer:
`logger.add_scalar(tag, value, global_step=step)`. -/
structure LogEvent where
  tag : String
  value : ℚ
  step : Nat
deriving DecidableEq, Repr

/-- A full rendered image with its pixel dimensions. -/
structure Image where
  h : Nat
  w : Nat
  pix : Nat
deriving DecidableEq, Repr

/-- The artifacts written by one execution of the rendering branch: the
step-stamped directory `step_<step>` receives one file per frame and a video
of all frames (train.py lines 103-108).  `modeAtRender` records the model
mode in effect while the frames were produced. -/
structure RenderOut where
  step : Nat
  modeAtRender : Mode
  frames : List Image
deriving DecidableEq, Repr

/-- The deterministic external collaborators of the driver.  model.py,
loss.py, scheduler.py and datasets.py are not part of the file under
verification; the spec treats them as opaque deterministic functions, which
is exactly how they appear here. -/
structure Collab where
  /-- Fresh model parameters from the `MipNeRF(...)` constructor. -/
  initParams : Nat
  /-- Fresh optimizer state from `optim.AdamW(...)`. -/
  initOpt : Nat
  /-- The cyclic training iterator: the batch returned by the n-th
  `next(data)` call. -/
  nextBatch : Nat → Batch
  /-- `model(rays)` given the current parameters: the `comp_rgb` output. -/
  forward : Nat → Rays → Nat
  /-- `loss_func(comp_rgb, pixels, lossmult)`: the scalar loss and the
  per-level PSNR array (coarse levels first, finest last). -/
  lossPsnr : Nat → Nat → Nat → ℚ × List ℚ
  /-- The combined effect of `loss.backward(); optimizer.step()` on the
  parameters and optimizer state, as a deterministic function of the current
  state and the batch. -/
  optStep : Nat → Nat → Rays → Nat → Nat × Nat
  /-- `scheduler.get_last_lr()[-1]` after n `scheduler.step()` calls. -/
  lrAt : Nat → ℚ
  /-- The per-level PSNR array returned by `eval_model` on the n-th
  evaluation batch. -/
  evalPsnr : Nat → Nat → List ℚ
  /-- The finite sequence of pose batches yielded by iterating the render
  dataloader. -/
  renderBatches : List Rays
  /-- The pixel payload of `model.render_image` (its dimensions are fixed by
  the requested h and w, see `render_image`). -/
  renderPix : Nat → Rays → Nat → Nat → Nat

/-- The configuration fields of `config` that the control flow of
`train_model` reads. -/
structure Config where
  max_steps : Nat
  save_every : Nat
  render_every : Nat
  continue_training : Bool
  do_eval : Bool
deriving DecidableEq, Repr

/-- The pre-existing environment of a run: the checkpoint files on disk and
the scalar-log events left in `<log_dir>/train` by previous runs. -/
structure World where
  fs : FS
  prevTrainLog : List LogEvent
deriving DecidableEq

/-- Modelled from the spec: `get_dataloader` (datasets.py, not under src/)
built for the render split exposes `.h`/`.w` equal to the height and width
it is constructed with and yields a finite sequence of pose batches. -/
structure RenderData where
  h : Nat
  w : Nat
  batches : List Rays

/-- Modelled from the spec: the render-split dataloader echoes the requested
h/w.  The driver constructs it with hardcoded `h=200, w=200`
(train.py line 25). -/
def get_dataloader_render (collab : Collab) (h w : Nat) : RenderData :=
  { h := h, w := w, batches := collab.renderBatches }

/-- The `render_data` object of train.py line 25: built once, with
`h=200, w=200` hardcoded regardless of `config.factor`. -/
def renderData (collab : Collab) : RenderData :=
  get_dataloader_render collab 200 200

/-- Modelled from the spec: `MipNeRF.render_image(rays, h, w, chunks)`
(model.py, not under src/) produces a full image of the requested height and
width. -/
def render_image (collab : Collab) (params : Nat) (r : Rays) (h w : Nat) : Image :=
  { h := h, w := w, pix := collab.renderPix params r h w }

/-- `np.mean` of a list of exact rationals. -/
def listMean (l : List ℚ) : ℚ := l.sum / l.length

/-- `save_model(model, optimizer, step, model_save_path)` (train.py lines
114-116): serialize `{'state_dict', 'optimizer', 'step'}` as one artifact at
the given path. -/
def save_model (params opt step : Nat) (fs : FS) (p : FPath) : FS :=
  fsWrite fs p { state_dict := params, optimizer := opt, step := step }

/-- The five scalar events appended at every step (train.py lines 77-81):
loss, mean of all PSNR levels but the last, the last PSNR level, the mean of
the whole PSNR array, and the current learning rate. -/
def stepLog (lossVal : ℚ) (psnr : List ℚ) (lr : ℚ) (step : Nat) : List LogEvent :=
  [ { tag := "train/loss", value := lossVal, step := step },
    { tag := "train/coarse_psnr", value := listMean psnr.dropLast, step := step },
    { tag := "train/fine_psnr", value := psnr.getLastD 0, step := step },
    { tag := "train/avg_psnr", value := listMean psnr, step := step },
    { tag := "train/lr", value := lr, step := step } ]

/-- The three evaluation scalars appended when `eval_data` is configured and
the saving branch runs (train.py lines 91-93). -/
def evalLog (psnr : List ℚ) (step : Nat) : List LogEvent :=
  [ { tag := "eval/coarse_psnr", value := listMean psnr.dropLast, step := step },
    { tag := "eval/fine_psnr", value := psnr.getLastD 0, step := step },
    { tag := "eval/avg_psnr", value := listMean psnr, step := step } ]

/-- The mutable state of the driver during the loop, together with the
observable traces it produces. -/
structure St where
  params : Nat
  opt : Nat
  schedSteps : Nat
  pulls : Nat
  evalPulls : Nat
  mode : Mode
  fs : FS
  log : List LogEvent
  renders : List RenderOut
  saveTrace : List Nat
  renderTrace : List Nat
  forwardModes : List Mode
deriving DecidableEq

/-- One iteration of the training loop body (train.py lines 64-108) at the
given step. -/
def runStep (collab : Collab) (cfg : Config) (step : Nat) (st : St) : St :=
  -- line 64: model.train()
  let st0 := { st with mode := Mode.train }
  -- lines 65-66: rays, pixels = next(data); comp_rgb, _, _ = model(rays)
  let b := collab.nextBatch st0.pulls
  let rgb := collab.forward st0.params b.rays
  let fwd := st0.forwardModes ++ [st0.mode]
  -- line 70: loss_val, psnr = loss_func(comp_rgb, pixels, rays.lossmult)
  let lp := collab.lossPsnr rgb b.pixels b.rays.lossmult
  -- lines 71-73: optimizer.zero_grad(); loss_val.backward(); optimizer.step()
  let po := collab.optStep st0.params st0.opt b.rays b.pixels
  -- line 74: scheduler.step()
  let sched := st0.schedSteps + 1
  -- lines 76-81: detach psnr and append the five scalar events
  let st1 : St := { st0 with
    params := po.1
    opt := po.2
    schedSteps := sched
    pulls := st0.pulls + 1
    forwardModes := fwd
    log := st0.log ++ stepLog lp.1 lp.2 (collab.lrAt sched) step }
  -- lines 83-93: saving branch
  let st2 :=
    if step % cfg.save_every = 0 then
      -- lines 84-85: two save_model calls with the same model/optimizer/step,
      -- first to model_<step>.pt, then to model.pt
      let fs2 := save_model st1.params st1.opt step
        (save_model st1.params st1.opt step st1.fs (FPath.stamped step)) FPath.latest
      let st' := { st1 with fs := fs2, saveTrace := st1.saveTrace ++ [step] }
      if cfg.do_eval then
        -- lines 86-93: eval_model toggles the model to eval and back to
        -- train (train.py lines 119 and 124) and three eval scalars are logged
        let ep := collab.evalPsnr st'.params st'.evalPulls
        { st' with
          mode := Mode.train
          evalPulls := st'.evalPulls + 1
          log := st'.log ++ evalLog ep step }
      else st'
    else st1
  -- lines 95-108: rendering branch
  if step % cfg.render_every = 0 then
    -- line 97: model.eval() — no matching model.train() inside this branch
    let st3 := { st2 with mode := Mode.eval }
    let rd := renderData collab
    -- lines 100-108: render every pose batch at (render_data.h, render_data.w),
    -- write the images and the video under step_<step>/
    let frames := rd.batches.map (fun r => render_image collab st3.params r rd.h rd.w)
    { st3 with
      renders := st3.renders ++ [{ step := step, modeAtRender := st3.mode, frames := frames }]
      renderTrace := st3.renderTrace ++ [step] }
  else st2

/-- The loop `for step in range(start, max_steps)`, as a fold of `runStep`
over the list of step indices. -/
def runSteps (collab : Collab) (cfg : Config) : List Nat → St → St
  | [], st => st
  | s :: rest, st => runSteps collab cfg rest (runStep collab cfg s st)

/-- The driver state right after initialization (train.py lines 16-61):
fresh counters, `model.train()` already called (line 57), and — because
line 60 removes `<log_dir>/train` with `ignore_errors=True` before the
`SummaryWriter` is created on line 61 — an empty scalar log, whatever the
previous runs had left there. -/
def initSt (params opt : Nat) (fs : FS) : St :=
  { params := params, opt := opt, schedSteps := 0, pulls := 0, evalPulls := 0,
    mode := Mode.train, fs := fs, log := [], renders := [],
    saveTrace := [], renderTrace := [], forwardModes := [] }

/-- Initialization (train.py lines 47-61): `start_step = 0` unless
`config.continue_training` is set, in which case `torch.load(model_save_path)`
must succeed — a missing `model.pt` raises and aborts the run — and the
loaded `state_dict`, `optimizer` and `step` replace the fresh ones. -/
def initRun (collab : Collab) (cfg : Config) (w : World) : Except Unit (St × Nat) :=
  if cfg.continue_training then
    match fsLookup w.fs FPath.latest with
    | none => Except.error ()
    | some ck => Except.ok (initSt ck.state_dict ck.optimizer w.fs, ck.step)
  else
    Except.ok (initSt collab.initParams collab.initOpt w.fs, 0)

/-- The whole of `train_model(config)`: initialize, then run the loop over
`range(start_step, config.max_steps)`.  A failed checkpoint load propagates
as an error before any step executes. -/
def trainModel (collab : Collab) (cfg : Config) (w : World) : Except Unit St :=
  match initRun collab cfg w with
  | Except.error e => Except.error e
  | Except.ok (st, start) =>
      Except.ok (runSteps collab cfg (List.range' start (cfg.max_steps - start)) st)

/-! ### Derived observables of one loop iteration -/

/-- The parameters after the optimizer update of the iteration entered in
state `st` (the model state that line 84/85 checkpoints and line 101
renders with). -/
def paramsAfter (collab : Collab) (st : St) : Nat :=
  (collab.optStep st.params st.opt (collab.nextBatch st.pulls).rays
    (collab.nextBatch st.pulls).pixels).1

/-- The optimizer state after the optimizer update of the iteration entered
in state `st`. -/
def optAfter (collab : Collab) (st : St) : Nat :=
  (collab.optStep st.params st.opt (collab.nextBatch st.pulls).rays
    (collab.nextBatch st.pulls).pixels).2

/-- The per-level PSNR array computed by `loss_func` in the iteration
entered in state `st` (train.py line 70). -/
def psnrAtState (collab : Collab) (st : St) : List ℚ :=
  (collab.lossPsnr (collab.forward st.params (collab.nextBatch st.pulls).rays)
    (collab.nextBatch st.pulls).pixels (collab.nextBatch st.pulls).rays.lossmult).2

/-- The checkpoint record written when the saving branch runs in the
iteration entered in state `st` at `step`. -/
def ckptAt (collab : Collab) (step : Nat) (st : St) : Ckpt :=
  { state_dict := paramsAfter collab st, optimizer := optAfter collab st, step := step }

/-- The scalar events that one execution of the loop body at `step` appends,
as a function of the state entering that iteration. -/
def blockAt (collab : Collab) (cfg : Config) (step : Nat) (st : St) : List LogEvent :=
  let b := collab.nextBatch st.pulls
  let rgb := collab.forward st.params b.rays
  let lp := collab.lossPsnr rgb b.pixels b.rays.lossmult
  stepLog lp.1 lp.2 (collab.lrAt (st.schedSteps + 1)) step ++
    (if step % cfg.save_every = 0 ∧ cfg.do_eval then
      evalLog (collab.evalPsnr (collab.optStep st.params st.opt b.rays b.pixels).1 st.evalPulls) step
    else [])

theorem runStep_log (collab : Collab) (cfg : Config) (step : Nat) (st : St) :
    (runStep collab cfg step st).log = st.log ++ blockAt collab cfg step st := by
  simp only [runStep, blockAt]
  repeat' split
  all_goals simp_all

theorem runStep_saveTrace (collab : Collab) (cfg : Config) (step : Nat) (st : St) :
    (runStep collab cfg step st).saveTrace =
      st.saveTrace ++ (if step % cfg.save_every = 0 then [step] else []) := by
  simp only [runStep]
  repeat' split
  all_goals simp_all

theorem runStep_renderTrace (collab : Collab) (cfg : Config) (step : Nat) (st : St) :
    (runStep collab cfg step st).renderTrace =
      st.renderTrace ++ (if step % cfg.render_every = 0 then [step] else []) := by
  simp only [runStep]
  repeat' split
  all_goals simp_all

theorem runStep_mode (collab : Collab) (cfg : Config) (step : Nat) (st : St) :
    (runStep collab cfg step st).mode =
      (if step % cfg.render_every = 0 then Mode.eval else Mode.train) := by
  simp only [runStep]
  repeat' split
  all_goals simp_all

theorem runStep_forwardModes (collab : Collab) (cfg : Config) (step : Nat) (st : St) :
    (runStep collab cfg step st).forwardModes = st.forwardModes ++ [Mode.train] := by
  simp only [runStep]
  repeat' split
  all_goals simp_all

theorem runStep_renders (collab : Collab) (cfg : Config) (step : Nat) (st : St) :
    (runStep collab cfg step st).renders =
      st.renders ++
        (if step % cfg.render_every = 0 then
          [{ step := step, modeAtRender := Mode.eval,
             frames := (renderData collab).batches.map
               (fun r => render_image collab (paramsAfter collab st) r
                 (renderData collab).h (renderData collab).w) }]
        else []) := by
  simp only [runStep, paramsAfter]
  repeat' split
  all_goals simp_all

theorem runStep_fs (collab : Collab) (cfg : Config) (step : Nat) (st : St) :
    (runStep collab cfg step st).fs =
      (if step % cfg.save_every = 0 then
        fsWrite (fsWrite st.fs (FPath.stamped step) (ckptAt collab step st))
          FPath.latest (ckptAt collab step st)
      else st.fs) := by
  simp only [runStep, ckptAt, paramsAfter, optAfter, save_model]
  repeat' split
  all_goals simp_all

end MipNeRFTrain

namespace MipNeRFTrain

theorem runSteps_nil (collab : Collab) (cfg : Config) (st : St) :
    runSteps collab cfg [] st = st := rfl

theorem runSteps_cons (collab : Collab) (cfg : Config) (s : Nat) (l : List Nat) (st : St) :
    runSteps collab cfg (s :: l) st = runSteps collab cfg l (runStep collab cfg s st) := rfl

theorem runSteps_append (collab : Collab) (cfg : Config) :
    ∀ (l₁ l₂ : List Nat) (st : St),
      runSteps collab cfg (l₁ ++ l₂) st = runSteps collab cfg l₂ (runSteps collab cfg l₁ st)
  | [], _, _ => rfl
  | s :: l₁, l₂, st => by
      rw [List.cons_append, runSteps_cons, runSteps_cons]
      exact runSteps_append collab cfg l₁ l₂ _

theorem runSteps_saveTrace (collab : Collab) (cfg : Config) :
    ∀ (l : List Nat) (st : St),
      (runSteps collab cfg l st).saveTrace =
        st.saveTrace ++ l.filter (fun s => s % cfg.save_every == 0)
  | [], st => by simp [runSteps]
  | s :: l, st => by
      rw [runSteps_cons, runSteps_saveTrace collab cfg l, runStep_saveTrace, List.filter_cons]
      by_cases h : s % cfg.save_every = 0 <;> simp [h]

theorem runSteps_renderTrace (collab : Collab) (cfg : Config) :
    ∀ (l : List Nat) (st : St),
      (runSteps collab cfg l st).renderTrace =
        st.renderTrace ++ l.filter (fun s => s % cfg.render_every == 0)
  | [], st => by simp [runSteps]
  | s :: l, st => by
      rw [runSteps_cons, runSteps_renderTrace collab cfg l, runStep_renderTrace, List.filter_cons]
      by_cases h : s % cfg.render_every = 0 <;> simp [h]

theorem runSteps_forwardModes (collab : Collab) (cfg : Config) :
    ∀ (l : List Nat) (st : St),
      (runSteps collab cfg l st).forwardModes =
        st.forwardModes ++ List.replicate l.length Mode.train
  | [], st => by simp [runSteps]
  | s :: l, st => by
      rw [runSteps_cons, runSteps_forwardModes collab cfg l, runStep_forwardModes]
      simp [List.replicate_succ]

theorem runSteps_concat_mode (collab : Collab) (cfg : Config) (l : List Nat) (x : Nat) (st : St) :
    (runSteps collab cfg (l ++ [x]) st).mode =
      (if x % cfg.render_every = 0 then Mode.eval else Mode.train) := by
  rw [runSteps_append, runSteps_cons, runSteps_nil, runStep_mode]

theorem runSteps_renders_mem (collab : Collab) (cfg : Config) :
    ∀ (l : List Nat) (st : St) (r : RenderOut), r ∈ (runSteps collab cfg l st).renders →
      r ∈ st.renders ∨
        (r.modeAtRender = Mode.eval ∧ ∀ img ∈ r.frames, img.h = 200 ∧ img.w = 200)
  | [], _, _, h => Or.inl h
  | s :: l, st, r, h => by
      have ih := runSteps_renders_mem collab cfg l (runStep collab cfg s st) r
        (by rwa [runSteps_cons] at h)
      rcases ih with h' | h'
      · rw [runStep_renders] at h'
        rcases List.mem_append.mp h' with h'' | h''
        · exact Or.inl h''
        · right
          split at h''
          · have hr := List.mem_singleton.mp h''
            subst hr
            refine ⟨rfl, ?_⟩
            intro img himg
            rcases List.mem_map.mp himg with ⟨ray, _, rfl⟩
            exact ⟨rfl, rfl⟩
          · cases h''
      · exact Or.inr h'

end MipNeRFTrain

namespace MipNeRFTrain

theorem fsLookup_fsWrite (fs : FS) (p : FPath) (c : Ckpt) (q : FPath) :
    fsLookup (fsWrite fs p c) q = if p = q then some c else fsLookup fs q := rfl

/-- Invariant tying the checkpoint files on disk to the completed saves:
every save step left a step-stamped file recording that step, and the
"latest" file holds the checkpoint of the most recent save, identical to
that save's stamped file. -/
def CkptInv (st : St) : Prop :=
  (∀ s ∈ st.saveTrace, ∃ ck, fsLookup st.fs (FPath.stamped s) = some ck ∧ ck.step = s) ∧
  (∀ s, st.saveTrace.getLast? = some s →
    ∃ ck, fsLookup st.fs FPath.latest = some ck ∧ ck.step = s ∧
      fsLookup st.fs (FPath.stamped s) = some ck)

theorem runStep_ckptInv (collab : Collab) (cfg : Config) (step : Nat) (st : St)
    (h : CkptInv st) : CkptInv (runStep collab cfg step st) := by
  obtain ⟨h1, h2⟩ := h
  rw [CkptInv, runStep_saveTrace, runStep_fs]
  by_cases hs : step % cfg.save_every = 0
  · rw [if_pos hs, if_pos hs]
    constructor
    · intro s hmem
      rcases List.mem_append.mp hmem with hm | hm
      · by_cases he : s = step
        · subst he
          exact ⟨ckptAt collab s st, by simp [fsLookup_fsWrite], rfl⟩
        · rcases h1 s hm with ⟨ck, hck, hstep⟩
          refine ⟨ck, ?_, hstep⟩
          rw [fsLookup_fsWrite, if_neg (by simp), fsLookup_fsWrite,
            if_neg (by simp [Ne.symm he])]
          exact hck
      · have : s = step := by simpa using hm
        subst this
        exact ⟨ckptAt collab s st, by simp [fsLookup_fsWrite], rfl⟩
    · intro s hlast
      rw [List.getLast?_concat] at hlast
      have : step = s := by injection hlast
      subst this
      refine ⟨ckptAt collab step st, by simp [fsLookup_fsWrite], rfl,
        by simp [fsLookup_fsWrite]⟩
  · rw [if_neg hs, if_neg hs, List.append_nil]
    exact ⟨h1, h2⟩

theorem runSteps_ckptInv (collab : Collab) (cfg : Config) :
    ∀ (l : List Nat) (st : St), CkptInv st → CkptInv (runSteps collab cfg l st)
  | [], _, h => h
  | s :: l, st, h =>
      runSteps_ckptInv collab cfg l _ (runStep_ckptInv collab cfg s st h)

/-- The scalar events appended by running the loop body over the given list
of steps, starting from `st`. -/
def logsFrom (collab : Collab) (cfg : Config) : List Nat → St → List LogEvent
  | [], _ => []
  | s :: l, st => blockAt collab cfg s st ++ logsFrom collab cfg l (runStep collab cfg s st)

theorem runSteps_log (collab : Collab) (cfg : Config) :
    ∀ (l : List Nat) (st : St),
      (runSteps collab cfg l st).log = st.log ++ logsFrom collab cfg l st
  | [], st => by simp [runSteps, logsFrom]
  | s :: l, st => by
      rw [runSteps_cons, runSteps_log collab cfg l, runStep_log, logsFrom, List.append_assoc]

theorem blockAt_step_eq (collab : Collab) (cfg : Config) (s : Nat) (st : St) :
    ∀ e ∈ blockAt collab cfg s st, e.step = s := by
  intro e he
  rw [blockAt] at he
  rcases List.mem_append.mp he with h | h
  · simp [stepLog] at h
    rcases h with h | h | h | h | h <;> subst h <;> rfl
  · split at h
    · simp [evalLog] at h
      rcases h with h | h | h <;> subst h <;> rfl
    · cases h

end MipNeRFTrain

namespace MipNeRFTrain

theorem logsFrom_filter_of_not_mem (collab : Collab) (cfg : Config) (s : Nat) :
    ∀ (l : List Nat) (st : St), (∀ t ∈ l, t ≠ s) →
      (logsFrom collab cfg l st).filter (fun e => e.step == s) = []
  | [], _, _ => rfl
  | t :: l, st, h => by
      rw [logsFrom, List.filter_append,
        logsFrom_filter_of_not_mem collab cfg s l _ (fun u hu => h u (List.mem_cons_of_mem t hu)),
        List.append_nil]
      apply List.filter_eq_nil_iff.mpr
      intro e he
      have hstep := blockAt_step_eq collab cfg t st e he
      simp [hstep, h t (List.mem_cons_self t l)]

theorem logsFrom_range'_filter (collab : Collab) (cfg : Config) (s : Nat) :
    ∀ (n a : Nat) (st : St), a ≤ s → s < a + n →
      (logsFrom collab cfg (List.range' a n) st).filter (fun e => e.step == s) =
        blockAt collab cfg s (runSteps collab cfg (List.range' a (s - a)) st)
  | 0, a, _, h1, h2 => absurd h2 (by omega)
  | n + 1, a, st, h1, h2 => by
      rw [List.range'_succ, logsFrom, List.filter_append]
      by_cases he : a = s
      · subst he
        rw [logsFrom_filter_of_not_mem collab cfg a (List.range' (a + 1) n) _
          (fun t ht => by have := List.mem_range'_1.mp ht; omega), List.append_nil]
        rw [List.filter_eq_self.mpr
          (fun e he' => by simp [blockAt_step_eq collab cfg a st e he'])]
        rw [Nat.sub_self]
        rfl
      · have ha : a < s := lt_of_le_of_ne h1 he
        rw [List.filter_eq_nil_iff.mpr
          (fun e he' => by simp [blockAt_step_eq collab cfg a st e he', he]), List.nil_append]
        rw [logsFrom_range'_filter collab cfg s n (a + 1) (runStep collab cfg a st)
          (by omega) (by omega)]
        have hr : List.range' a (s - a) = a :: List.range' (a + 1) (s - (a + 1)) := by
          have hsa : s - a = (s - (a + 1)) + 1 := by omega
          rw [hsa, List.range'_succ]
        rw [hr, runSteps_cons]

end MipNeRFTrain

namespace MipNeRFTrain

theorem initRun_ok_shape (collab : Collab) (cfg : Config) (w : World) (st0 : St) (start : Nat)
    (h : initRun collab cfg w = Except.ok (st0, start)) :
    st0.log = [] ∧ st0.renders = [] ∧ st0.saveTrace = [] ∧ st0.renderTrace = [] ∧
      st0.forwardModes = [] ∧ st0.fs = w.fs ∧ st0.mode = Mode.train := by
  rw [initRun] at h
  split at h
  · split at h
    · cases h
    · injection h with h'
      have h1 : st0 = initSt _ _ w.fs := congrArg Prod.fst h'.symm
      subst h1
      simp [initSt]
  · injection h with h'
    have h1 : st0 = initSt _ _ w.fs := congrArg Prod.fst h'.symm
    subst h1
    simp [initSt]

theorem trainModel_ok (collab : Collab) (cfg : Config) (w : World) (st0 : St) (start : Nat)
    (res : St) (hinit : initRun collab cfg w = Except.ok (st0, start))
    (hrun : trainModel collab cfg w = Except.ok res) :
    res = runSteps collab cfg (List.range' start (cfg.max_steps - start)) st0 := by
  rw [trainModel, hinit] at hrun
  injection hrun with h
  exact h.symm

theorem listMean_eq_concat (l : List ℚ) (h : l ≠ []) :
    listMean l = listMean (l.dropLast ++ [l.getLastD 0]) := by
  rw [List.getLastD_eq_getLast?, List.getLast?_eq_getLast l h, Option.getD_some,
    List.dropLast_append_getLast h]

theorem blockAt_filter_avg (collab : Collab) (cfg : Config) (s : Nat) (st : St) :
    (blockAt collab cfg s st).filter (fun e => e.tag == "train/avg_psnr") =
      [{ tag := "train/avg_psnr", value := listMean (psnrAtState collab st), step := s }] := by
  rw [blockAt, List.filter_append]
  split
  · simp [stepLog, evalLog, psnrAtState]
  · simp [stepLog, psnrAtState]

theorem blockAt_filter_coarse (collab : Collab) (cfg : Config) (s : Nat) (st : St) :
    (blockAt collab cfg s st).filter (fun e => e.tag == "train/coarse_psnr") =
      [{ tag := "train/coarse_psnr",
         value := listMean (psnrAtState collab st).dropLast, step := s }] := by
  rw [blockAt, List.filter_append]
  split
  · simp [stepLog, evalLog, psnrAtState]
  · simp [stepLog, psnrAtState]

theorem blockAt_filter_fine (collab : Collab) (cfg : Config) (s : Nat) (st : St) :
    (blockAt collab cfg s st).filter (fun e => e.tag == "train/fine_psnr") =
      [{ tag := "train/fine_psnr",
         value := (psnrAtState collab st).getLastD 0, step := s }] := by
  rw [blockAt, List.filter_append]
  split
  · simp [stepLog, evalLog, psnrAtState]
  · simp [stepLog, psnrAtState]

theorem blockAt_no_eval (collab : Collab) (cfg : Config) (s : Nat) (st : St)
    (h : cfg.do_eval = false) :
    blockAt collab cfg s st =
      stepLog (collab.lossPsnr (collab.forward st.params (collab.nextBatch st.pulls).rays)
          (collab.nextBatch st.pulls).pixels (collab.nextBatch st.pulls).rays.lossmult).1
        (psnrAtState collab st) (collab.lrAt (st.schedSteps + 1)) s := by
  rw [blockAt]
  simp [h, psnrAtState]

end MipNeRFTrain

namespace MipNeRFTrain

/-! ### Concrete instances exercised by the witnesses -/

/-- A small concrete collaborator set: a deterministic dataloader, model,
loss (two PSNR levels), optimizer and schedule, and one render pose. -/
def collabEx : Collab :=
  { initParams := 0
    initOpt := 0
    nextBatch := fun n => { rays := { rayId := n, lossmult := 1 }, pixels := n }
    forward := fun p r => p + r.rayId
    lossPsnr := fun rgb px lm => (((rgb : ℚ) + px + lm) / 4, [1, 2])
    optStep := fun p o _ _ => (p + 1, o + 1)
    lrAt := fun n => 1 / ((n : ℚ) + 1)
    evalPsnr := fun _ _ => [3, 4]
    renderBatches := [{ rayId := 7, lossmult := 1 }]
    renderPix := fun p r h w => p + r.rayId + h + w }

/-- An environment with no checkpoint files and no previous scalar log. -/
def worldEmpty : World := { fs := [], prevTrainLog := [] }

/-- Tiny config: four steps, saves every two steps, renders every three. -/
def cfgA : Config :=
  { max_steps := 4, save_every := 2, render_every := 3,
    continue_training := false, do_eval := false }

/-- Tiny config: one step on which both branches fire. -/
def cfgB : Config :=
  { max_steps := 1, save_every := 1, render_every := 1,
    continue_training := false, do_eval := false }

/-- Tiny config: two steps, rendering only on step 0. -/
def cfgC : Config :=
  { max_steps := 2, save_every := 1, render_every := 2,
    continue_training := false, do_eval := false }

/-- The final state of a run of the driver over `cfg` from the empty
environment with the concrete collaborators. -/
def exResOf (cfg : Config) : St :=
  match trainModel collabEx cfg worldEmpty with
  | Except.ok r => r
  | Except.error _ => initSt 0 0 []

/-- C1: for every step s produced by the loop over [start_step, max_steps),
the checkpoint-saving branch runs iff s mod save_every = 0 and the rendering
branch runs iff s mod render_every = 0; the two triggers are decided
independently, so both can run in the same step. -/
theorem save_render_cadence (collab : Collab) (cfg : Config) (w : World)
    (res st0 : St) (start : Nat)
    (hinit : initRun collab cfg w = Except.ok (st0, start))
    (hrun : trainModel collab cfg w = Except.ok res)
    (_hsave : 0 < cfg.save_every) (_hrender : 0 < cfg.render_every) (s : Nat) :
    (s ∈ res.saveTrace ↔ start ≤ s ∧ s < cfg.max_steps ∧ s % cfg.save_every = 0) ∧
    (s ∈ res.renderTrace ↔ start ≤ s ∧ s < cfg.max_steps ∧ s % cfg.render_every = 0) := by
  obtain ⟨hlog, hrend, hsv, hrt, hfm, hfs, hmd⟩ := initRun_ok_shape collab cfg w st0 start hinit
  have hres := trainModel_ok collab cfg w st0 start res hinit hrun
  subst hres
  rw [runSteps_saveTrace, runSteps_renderTrace, hsv, hrt]
  constructor
  · simp only [List.nil_append, List.mem_filter, List.mem_range'_1, beq_iff_eq]
    constructor
    · rintro ⟨⟨ha, hb⟩, hc⟩
      exact ⟨ha, by omega, hc⟩
    · rintro ⟨ha, hb, hc⟩
      exact ⟨⟨ha, by omega⟩, hc⟩
  · simp only [List.nil_append, List.mem_filter, List.mem_range'_1, beq_iff_eq]
    constructor
    · rintro ⟨⟨ha, hb⟩, hc⟩
      exact ⟨ha, by omega, hc⟩
    · rintro ⟨ha, hb, hc⟩
      exact ⟨⟨ha, by omega⟩, hc⟩

/-- Witness for C1: a concrete four-step run where step 0 fires both the
saving and the rendering branch at once. -/
theorem save_render_cadence_witness :
    initRun collabEx cfgA worldEmpty = Except.ok (initSt 0 0 [], 0) ∧
    trainModel collabEx cfgA worldEmpty = Except.ok (exResOf cfgA) ∧
    0 < cfgA.save_every ∧ 0 < cfgA.render_every ∧
    ((0 ∈ (exResOf cfgA).saveTrace ↔
        0 ≤ 0 ∧ 0 < cfgA.max_steps ∧ 0 % cfgA.save_every = 0) ∧
      (0 ∈ (exResOf cfgA).renderTrace ↔
        0 ≤ 0 ∧ 0 < cfgA.max_steps ∧ 0 % cfgA.render_every = 0)) :=
  ⟨rfl, rfl, by decide, by decide,
    save_render_cadence collabEx cfgA worldEmpty (exResOf cfgA) (initSt 0 0 []) 0
      rfl rfl (by decide) (by decide) 0⟩

/-- C3: save_model followed by a resumed run's load round-trips: the file at
the path holds exactly the saved {state_dict, optimizer, step} triple, and
resuming from it yields start_step = S with the saved parameter and
optimizer state restored. -/
theorem save_load_roundtrip (collab : Collab) (cfg : Config) (m o S : Nat) (fs : FS)
    (prev : List LogEvent) :
    fsLookup (save_model m o S fs FPath.latest) FPath.latest =
      some { state_dict := m, optimizer := o, step := S } ∧
    (initRun collab { cfg with continue_training := true }
        { fs := save_model m o S fs FPath.latest, prevTrainLog := prev }).map
        (fun p => (p.1.params, p.1.opt, p.2)) = Except.ok (m, o, S) := by
  constructor
  · rfl
  · simp [initRun, save_model, fsWrite, fsLookup, initSt, Except.map]

/-- C7: when resuming is requested and the latest checkpoint file is absent,
train_model fails with the load error before any training step executes. -/
theorem missing_checkpoint_fatal (collab : Collab) (cfg : Config) (w : World)
    (hc : cfg.continue_training = true)
    (hmiss : fsLookup w.fs FPath.latest = none) :
    trainModel collab cfg w = Except.error () := by
  simp [trainModel, initRun, hc, hmiss]

/-- Tiny config requesting a resume (with no checkpoint on disk this run
must abort). -/
def cfgResume : Config :=
  { max_steps := 1, save_every := 1, render_every := 1,
    continue_training := true, do_eval := false }

/-- Witness for C7: resuming from an empty environment aborts. -/
theorem missing_checkpoint_fatal_witness :
    cfgResume.continue_training = true ∧
    fsLookup worldEmpty.fs FPath.latest = none ∧
    trainModel collabEx cfgResume worldEmpty = Except.error () :=
  ⟨rfl, rfl, missing_checkpoint_fatal collabEx cfgResume worldEmpty rfl rfl⟩

/-- C9: startup deletes the previous `<log_dir>/train` scalar-log directory
(ignoring errors) before the logger is created — also when resuming — so the
run, and in particular the scalar log it ends with, is independent of the
metric history previous runs left behind. -/
theorem prev_scalar_log_erased (collab : Collab) (cfg : Config) (fs : FS)
    (prev : List LogEvent) :
    trainModel collab cfg { fs := fs, prevTrainLog := prev } =
      trainModel collab cfg { fs := fs, prevTrainLog := [] } := rfl

end MipNeRFTrain

namespace MipNeRFTrain

/-- C2: at every executed step, the logged mean PSNR is the mean of the
whole per-level PSNR array — the concatenation of the coarse per-level
PSNRs with the single fine PSNR — while the logged coarse PSNR is the mean
of all levels but the last and the logged fine PSNR is the last level; the
mean is taken over the concatenated array, not as the average of the two
logged values. -/
theorem avg_psnr_is_mean_of_concat (collab : Collab) (cfg : Config) (w : World)
    (res st0 : St) (start s : Nat)
    (hinit : initRun collab cfg w = Except.ok (st0, start))
    (hrun : trainModel collab cfg w = Except.ok res)
    (h1 : start ≤ s) (h2 : s < cfg.max_steps)
    (hne : psnrAtState collab
      (runSteps collab cfg (List.range' start (s - start)) st0) ≠ []) :
    (res.log.filter (fun e => e.tag == "train/avg_psnr" && e.step == s)).map
        LogEvent.value =
      [listMean ((psnrAtState collab
          (runSteps collab cfg (List.range' start (s - start)) st0)).dropLast ++
        [(psnrAtState collab
          (runSteps collab cfg (List.range' start (s - start)) st0)).getLastD 0])] ∧
    (res.log.filter (fun e => e.tag == "train/coarse_psnr" && e.step == s)).map
        LogEvent.value =
      [listMean (psnrAtState collab
          (runSteps collab cfg (List.range' start (s - start)) st0)).dropLast] ∧
    (res.log.filter (fun e => e.tag == "train/fine_psnr" && e.step == s)).map
        LogEvent.value =
      [(psnrAtState collab
          (runSteps collab cfg (List.range' start (s - start)) st0)).getLastD 0] := by
  obtain ⟨hlog, hrend, hsv, hrt, hfm, hfs, hmd⟩ := initRun_ok_shape collab cfg w st0 start hinit
  have hres := trainModel_ok collab cfg w st0 start res hinit hrun
  subst hres
  rw [runSteps_log, hlog, List.nil_append]
  rw [← List.filter_filter, ← List.filter_filter, ← List.filter_filter]
  rw [logsFrom_range'_filter collab cfg s (cfg.max_steps - start) start st0 h1 (by omega)]
  rw [blockAt_filter_avg, blockAt_filter_coarse, blockAt_filter_fine]
  refine ⟨?_, rfl, rfl⟩
  rw [← listMean_eq_concat _ hne]
  rfl

/-- Witness for C2 on a concrete one-step run whose PSNR array is [1, 2]. -/
theorem avg_psnr_is_mean_of_concat_witness :
    initRun collabEx cfgB worldEmpty = Except.ok (initSt 0 0 [], 0) ∧
    trainModel collabEx cfgB worldEmpty = Except.ok (exResOf cfgB) ∧
    0 ≤ 0 ∧ 0 < cfgB.max_steps ∧
    psnrAtState collabEx
      (runSteps collabEx cfgB (List.range' 0 (0 - 0)) (initSt 0 0 [])) ≠ [] ∧
    (((exResOf cfgB).log.filter
        (fun e => e.tag == "train/avg_psnr" && e.step == 0)).map LogEvent.value =
      [listMean ((psnrAtState collabEx
          (runSteps collabEx cfgB (List.range' 0 (0 - 0)) (initSt 0 0 []))).dropLast ++
        [(psnrAtState collabEx
          (runSteps collabEx cfgB (List.range' 0 (0 - 0)) (initSt 0 0 []))).getLastD 0])] ∧
      ((exResOf cfgB).log.filter
        (fun e => e.tag == "train/coarse_psnr" && e.step == 0)).map LogEvent.value =
      [listMean (psnrAtState collabEx
          (runSteps collabEx cfgB (List.range' 0 (0 - 0)) (initSt 0 0 []))).dropLast] ∧
      ((exResOf cfgB).log.filter
        (fun e => e.tag == "train/fine_psnr" && e.step == 0)).map LogEvent.value =
      [(psnrAtState collabEx
          (runSteps collabEx cfgB (List.range' 0 (0 - 0)) (initSt 0 0 []))).getLastD 0]) :=
  ⟨rfl, rfl, by decide, by decide, by decide,
    avg_psnr_is_mean_of_concat collabEx cfgB worldEmpty (exResOf cfgB) (initSt 0 0 [])
      0 0 rfl rfl (by decide) (by decide) (by decide)⟩

/-- C4: with evaluation disabled, the events logged at each executed step
are exactly five scalars — loss, coarse PSNR, fine PSNR, mean PSNR and
current learning rate — keyed by that step (settling the spec's
four-versus-five count as five). -/
theorem five_scalars_per_step (collab : Collab) (cfg : Config) (w : World)
    (res st0 : St) (start s : Nat)
    (hinit : initRun collab cfg w = Except.ok (st0, start))
    (hrun : trainModel collab cfg w = Except.ok res)
    (heval : cfg.do_eval = false)
    (h1 : start ≤ s) (h2 : s < cfg.max_steps) :
    (res.log.filter (fun e => e.step == s)).map LogEvent.tag =
      ["train/loss", "train/coarse_psnr", "train/fine_psnr",
        "train/avg_psnr", "train/lr"] ∧
    (res.log.filter (fun e => e.step == s)).length = 5 := by
  obtain ⟨hlog, hrend, hsv, hrt, hfm, hfs, hmd⟩ := initRun_ok_shape collab cfg w st0 start hinit
  have hres := trainModel_ok collab cfg w st0 start res hinit hrun
  subst hres
  rw [runSteps_log, hlog, List.nil_append]
  rw [logsFrom_range'_filter collab cfg s (cfg.max_steps - start) start st0 h1 (by omega)]
  rw [blockAt_no_eval collab cfg s _ heval]
  exact ⟨rfl, rfl⟩

/-- Witness for C4: the one-step run logs exactly the five train scalars. -/
theorem five_scalars_per_step_witness :
    initRun collabEx cfgB worldEmpty = Except.ok (initSt 0 0 [], 0) ∧
    trainModel collabEx cfgB worldEmpty = Except.ok (exResOf cfgB) ∧
    cfgB.do_eval = false ∧ 0 ≤ 0 ∧ 0 < cfgB.max_steps ∧
    (((exResOf cfgB).log.filter (fun e => e.step == 0)).map LogEvent.tag =
      ["train/loss", "train/coarse_psnr", "train/fine_psnr",
        "train/avg_psnr", "train/lr"] ∧
      ((exResOf cfgB).log.filter (fun e => e.step == 0)).length = 5) :=
  ⟨rfl, rfl, rfl, by decide, by decide,
    five_scalars_per_step collabEx cfgB worldEmpty (exResOf cfgB) (initSt 0 0 [])
      0 0 rfl rfl rfl (by decide) (by decide)⟩

end MipNeRFTrain

namespace MipNeRFTrain

/-- C5 counterexample: with max_steps = 1 and render_every = 1 the rendering
branch runs on the final step, and the loop exits with the model still in
inference mode — the rendering branch does not switch the model back to
training mode when it completes. -/
theorem render_mode_not_restored_cex :
    (trainModel collabEx cfgB worldEmpty).map (fun r => (r.mode, r.renderTrace)) =
      Except.ok (Mode.eval, [0]) ∧ Mode.eval ≠ Mode.train :=
  ⟨rfl, by decide⟩

/-- C5 amended: on every rendering step the model is switched to inference
mode before rendering; it returns to training mode only at the top of the
next loop iteration, so every forward pass still runs in training mode, but
after the final iteration the model remains in inference mode exactly when
the final step triggered rendering. -/
theorem mode_discipline (collab : Collab) (cfg : Config) (w : World)
    (res st0 : St) (start : Nat)
    (hinit : initRun collab cfg w = Except.ok (st0, start))
    (hrun : trainModel collab cfg w = Except.ok res)
    (hlt : start < cfg.max_steps) :
    (∀ m ∈ res.forwardModes, m = Mode.train) ∧
    (∀ r ∈ res.renders, r.modeAtRender = Mode.eval) ∧
    res.mode =
      (if (cfg.max_steps - 1) % cfg.render_every = 0 then Mode.eval else Mode.train) := by
  obtain ⟨hlog, hrend, hsv, hrt, hfm, hfs, hmd⟩ := initRun_ok_shape collab cfg w st0 start hinit
  have hres := trainModel_ok collab cfg w st0 start res hinit hrun
  subst hres
  refine ⟨?_, ?_, ?_⟩
  · intro m hm
    rw [runSteps_forwardModes, hfm, List.nil_append] at hm
    exact List.eq_of_mem_replicate hm
  · intro r hr
    rcases runSteps_renders_mem collab cfg _ st0 r hr with h | h
    · rw [hrend] at h
      cases h
    · exact h.1
  · have hconcat : List.range' start (cfg.max_steps - start) =
        List.range' start (cfg.max_steps - start - 1) ++ [cfg.max_steps - 1] := by
      have hn : cfg.max_steps - start = (cfg.max_steps - start - 1) + 1 := by omega
      rw [hn, List.range'_concat]
      congr 1
      simp only [List.cons.injEq, and_true]
      omega
    rw [hconcat, runSteps_concat_mode]

/-- Witness for C5's amended statement: a two-step run rendering only on
step 0 ends back in training mode, every forward pass ran in training mode,
and the render itself happened in inference mode. -/
theorem mode_discipline_witness :
    initRun collabEx cfgC worldEmpty = Except.ok (initSt 0 0 [], 0) ∧
    trainModel collabEx cfgC worldEmpty = Except.ok (exResOf cfgC) ∧
    0 < cfgC.max_steps ∧
    ((∀ m ∈ (exResOf cfgC).forwardModes, m = Mode.train) ∧
      (∀ r ∈ (exResOf cfgC).renders, r.modeAtRender = Mode.eval) ∧
      (exResOf cfgC).mode =
        (if (cfgC.max_steps - 1) % cfgC.render_every = 0 then Mode.eval
          else Mode.train)) :=
  ⟨rfl, rfl, by decide,
    mode_discipline collabEx cfgC worldEmpty (exResOf cfgC) (initSt 0 0 []) 0
      rfl rfl (by decide)⟩

/-- C6: every step on which the saving branch ran left a step-stamped
checkpoint recording that step, and after the most recently completed save
the canonical latest path holds that save's checkpoint — the same content
as its step-stamped file. -/
theorem latest_tracks_last_save (collab : Collab) (cfg : Config) (w : World)
    (res st0 : St) (start : Nat)
    (hinit : initRun collab cfg w = Except.ok (st0, start))
    (hrun : trainModel collab cfg w = Except.ok res) :
    (∀ s ∈ res.saveTrace,
      ∃ ck, fsLookup res.fs (FPath.stamped s) = some ck ∧ ck.step = s) ∧
    (∀ s, res.saveTrace.getLast? = some s →
      ∃ ck, fsLookup res.fs FPath.latest = some ck ∧ ck.step = s ∧
        fsLookup res.fs (FPath.stamped s) = some ck) := by
  obtain ⟨hlog, hrend, hsv, hrt, hfm, hfs, hmd⟩ := initRun_ok_shape collab cfg w st0 start hinit
  have hres := trainModel_ok collab cfg w st0 start res hinit hrun
  subst hres
  have hinv : CkptInv st0 := by
    rw [CkptInv, hsv]
    exact ⟨fun s hs => absurd hs (List.not_mem_nil s), fun s hs => by cases hs⟩
  have := runSteps_ckptInv collab cfg (List.range' start (cfg.max_steps - start)) st0 hinv
  rw [CkptInv] at this
  exact this

/-- Witness for C6: in the one-step run, step 0 saved; model_0.pt records
step 0 and model.pt holds the same checkpoint. -/
theorem latest_tracks_last_save_witness :
    initRun collabEx cfgB worldEmpty = Except.ok (initSt 0 0 [], 0) ∧
    trainModel collabEx cfgB worldEmpty = Except.ok (exResOf cfgB) ∧
    ((∀ s ∈ (exResOf cfgB).saveTrace,
        ∃ ck, fsLookup (exResOf cfgB).fs (FPath.stamped s) = some ck ∧ ck.step = s) ∧
      (∀ s, (exResOf cfgB).saveTrace.getLast? = some s →
        ∃ ck, fsLookup (exResOf cfgB).fs FPath.latest = some ck ∧ ck.step = s ∧
          fsLookup (exResOf cfgB).fs (FPath.stamped s) = some ck)) :=
  ⟨rfl, rfl,
    latest_tracks_last_save collabEx cfgB worldEmpty (exResOf cfgB) (initSt 0 0 []) 0
      rfl rfl⟩

/-- The loss and PSNR events a finished run logged, in order. -/
def trainMetrics (res : St) : List LogEvent :=
  res.log.filter (fun e =>
    e.tag == "train/loss" || e.tag == "train/coarse_psnr" ||
    e.tag == "train/fine_psnr" || e.tag == "train/avg_psnr")

/-- C8: with deterministic collaborators, identical configuration and
identical starting environment, two independent executions of train_model
log identical loss and PSNR sequences at every step. -/
theorem deterministic_metrics (collab₁ collab₂ : Collab) (cfg₁ cfg₂ : Config)
    (w₁ w₂ : World) (hc : collab₁ = collab₂) (hcfg : cfg₁ = cfg₂) (hw : w₁ = w₂) :
    (trainModel collab₁ cfg₁ w₁).map trainMetrics =
      (trainModel collab₂ cfg₂ w₂).map trainMetrics := by
  subst hc hcfg hw
  rfl

/-- Witness for C8: two runs of the concrete configuration agree. -/
theorem deterministic_metrics_witness :
    collabEx = collabEx ∧ cfgA = cfgA ∧ worldEmpty = worldEmpty ∧
    (trainModel collabEx cfgA worldEmpty).map trainMetrics =
      (trainModel collabEx cfgA worldEmpty).map trainMetrics :=
  ⟨rfl, rfl, rfl,
    deterministic_metrics collabEx collabEx cfgA cfgA worldEmpty worldEmpty rfl rfl rfl⟩

/-- C10: the render dataloader is built with hardcoded height and width 200,
so every frame produced by any execution of the rendering branch — hence
every written preview image and video frame — is 200x200 pixels, for every
configuration. -/
theorem render_frames_are_200x200 (collab : Collab) (cfg : Config) (w : World)
    (res st0 : St) (start : Nat)
    (hinit : initRun collab cfg w = Except.ok (st0, start))
    (hrun : trainModel collab cfg w = Except.ok res) :
    (renderData collab).h = 200 ∧ (renderData collab).w = 200 ∧
    ∀ r ∈ res.renders, ∀ img ∈ r.frames, img.h = 200 ∧ img.w = 200 := by
  obtain ⟨hlog, hrend, hsv, hrt, hfm, hfs, hmd⟩ := initRun_ok_shape collab cfg w st0 start hinit
  have hres := trainModel_ok collab cfg w st0 start res hinit hrun
  subst hres
  refine ⟨rfl, rfl, ?_⟩
  intro r hr
  rcases runSteps_renders_mem collab cfg _ st0 r hr with h | h
  · rw [hrend] at h
    cases h
  · exact h.2

/-- Witness for C10: the one-step run rendered one 200x200 frame. -/
theorem render_frames_are_200x200_witness :
    initRun collabEx cfgB worldEmpty = Except.ok (initSt 0 0 [], 0) ∧
    trainModel collabEx cfgB worldEmpty = Except.ok (exResOf cfgB) ∧
    ((renderData collabEx).h = 200 ∧ (renderData collabEx).w = 200 ∧
      ∀ r ∈ (exResOf cfgB).renders, ∀ img ∈ r.frames, img.h = 200 ∧ img.w = 200) :=
  ⟨rfl, rfl,
    render_frames_are_200x200 collabEx cfgB worldEmpty (exResOf cfgB) (initSt 0 0 []) 0
      rfl rfl⟩

end MipNeRFTrain
